import Mathlib

/-! Shallow embedding of the computational core of the SDFVolumeEditor /
SDFVolumeViewer repository: the shared parameter struct layouts declared in
the two definitions.h headers, and the VolumeGrid / SphereTracer /
SculptEngine components those headers bind together. -/

namespace SDF

/-! ## C/Metal struct layout model

Both headers are consumed by a C/Swift host compiler and by the Metal shader
compiler.  For the scalar types used (unsigned int, float, int) both
compilers lay fields out with size 4 and alignment 4; for the 3-component
vector types of the Viewer header (simd_float3 / float3, simd_uint3 / uint3)
both use size 16 and alignment 16.  A struct layout is computed by the
standard C rule: each field is placed at the running offset rounded up to the
field's alignment, and the struct size is the end offset rounded up to the
struct's alignment (the maximum field alignment). -/

/-- Scalar or vector field type appearing in the shared headers. -/
inductive FieldTy
  | u32
  | f32
  | i32
  | vec3f
  | vec3u
deriving DecidableEq, Repr

/-- One declared struct field: its type together with the byte size and
alignment that type has under both the C/Swift and the Metal compiler. -/
structure CField where
  ty : FieldTy
  size : Nat
  align : Nat
deriving DecidableEq, Repr

/-- Round an offset up to the next multiple of the alignment. -/
def alignUp (n a : Nat) : Nat :=
  if a = 0 then n else a * ((n + a - 1) / a)

/-- Byte offsets of the fields of a struct whose first field would be placed
at the given running offset. -/
def offsetsFrom : Nat → List CField → List Nat
  | _, [] => []
  | off, f :: fs =>
    let o := alignUp off f.align
    o :: offsetsFrom (o + f.size) fs

/-- End offset (one past the last byte of the last field) of a struct laid
out from the given running offset. -/
def endOffset : Nat → List CField → Nat
  | off, [] => off
  | off, f :: fs => endOffset (alignUp off f.align + f.size) fs

/-- Alignment of a struct: the maximum alignment of its fields. -/
def structAlign (fs : List CField) : Nat :=
  fs.foldl (fun m f => max m f.align) 1

/-- Total size of a struct: its end offset rounded up to its alignment. -/
def structSize (fs : List CField) : Nat :=
  alignUp (endOffset 0 fs) (structAlign fs)

/-- Byte offsets of all fields of a struct. -/
def structOffsets (fs : List CField) : List Nat :=
  offsetsFrom 0 fs

/-- Byte offset of the field at a given position in the declaration order. -/
def offsetAt (fs : List CField) (i : Nat) : Nat :=
  (structOffsets fs).getD i 0

/-- An unsigned 32-bit scalar field (size 4, alignment 4 in C and Metal). -/
def u32 : CField := ⟨.u32, 4, 4⟩

/-- A 32-bit float scalar field (size 4, alignment 4 in C and Metal). -/
def f32 : CField := ⟨.f32, 4, 4⟩

/-- A signed 32-bit scalar field (size 4, alignment 4 in C and Metal). -/
def i32 : CField := ⟨.i32, 4, 4⟩

/-- A 3-component float vector field: simd_float3 on the C/Swift side and
float3 on the Metal side, both size 16 and alignment 16. -/
def v3f : CField := ⟨.vec3f, 16, 16⟩

/-- A 3-component unsigned vector field: simd_uint3 / uint3, both size 16
and alignment 16. -/
def v3u : CField := ⟨.vec3u, 16, 16⟩

/-- Field list of struct VolumeParams in the Editor header
(src/SDFVolumeEditor/SDFVolumeEditor/definitions.h, lines 23-41): three
unsigned dimensions, three float voxel-size components, three float start
position components, and one float pad. -/
def editorVolumeParamsFields : List CField :=
  [u32, u32, u32,
   f32, f32, f32,
   f32, f32, f32,
   f32]

/-- Field list of struct RaymarchParams in the Editor header
(src/SDFVolumeEditor/SDFVolumeEditor/definitions.h, lines 44-91):
outputWidth, outputHeight, cameraPosition X/Y/Z, cameraForward X/Y/Z,
cameraRight X/Y/Z, cameraUp X/Y/Z, fov, volumeMin X/Y/Z, volumeMax X/Y/Z,
volumeDim X/Y/Z, time, isoValue, and the trailing pad float. -/
def editorRaymarchParamsFields : List CField :=
  [u32, u32,
   f32, f32, f32,
   f32, f32, f32,
   f32, f32, f32,
   f32, f32, f32,
   f32,
   f32, f32, f32,
   f32, f32, f32,
   u32, u32, u32,
   f32, f32,
   f32]

/-- Field list of struct SculptParams in the Editor header
(src/SDFVolumeEditor/SDFVolumeEditor/definitions.h, lines 94-110): tool
position X/Y/Z, previous position X/Y/Z, radius, smoothFactor, mode,
hasPreviousPosition. -/
def editorSculptParamsFields : List CField :=
  [f32, f32, f32,
   f32, f32, f32,
   f32, f32,
   i32, i32]

/-- Field list of struct VolumeParams in the Viewer header
(src/SDFVolumeViewer/definitions.h, lines 29-33): dimensions (vec3u),
voxelSize (vec3f), voxelStartPosition (vec3f). -/
def viewerVolumeParamsFields : List CField :=
  [v3u, v3f, v3f]

/-- Field list of struct RaymarchParams in the Viewer header
(src/SDFVolumeViewer/definitions.h, lines 36-56): outputWidth, outputHeight,
cameraPosition, cameraForward, cameraRight, cameraUp (vec3f each), fov,
volumeMin, volumeMax (vec3f), volumeDim (vec3u), time, isoValue. -/
def viewerRaymarchParamsFields : List CField :=
  [u32, u32,
   v3f, v3f, v3f, v3f,
   f32,
   v3f, v3f,
   v3u,
   f32, f32]

/-! ## Rational 3-vectors

Machine float32 arithmetic is modelled with exact rationals. -/

/-- A 3-component vector with rational components. -/
structure Vec3 where
  x : ℚ
  y : ℚ
  z : ℚ
deriving DecidableEq, Repr

instance : Add Vec3 := ⟨fun a b => ⟨a.x + b.x, a.y + b.y, a.z + b.z⟩⟩

instance : Sub Vec3 := ⟨fun a b => ⟨a.x - b.x, a.y - b.y, a.z - b.z⟩⟩

instance : Neg Vec3 := ⟨fun a => ⟨-a.x, -a.y, -a.z⟩⟩

instance : SMul ℚ Vec3 := ⟨fun c a => ⟨c * a.x, c * a.y, c * a.z⟩⟩

/-- Dot product of two vectors. -/
def Vec3.dot (a b : Vec3) : ℚ :=
  a.x * b.x + a.y * b.y + a.z * b.z

/-- Squared euclidean distance between two points. -/
def dist2 (a b : Vec3) : ℚ :=
  Vec3.dot (a - b) (a - b)

/-- Clamp a rational to a closed interval. -/
def clampQ (v lo hi : ℚ) : ℚ :=
  max lo (min v hi)

/-- Linear interpolation between two values. -/
def lerp (a b t : ℚ) : ℚ :=
  a + t * (b - a)

/-! ## VolumeGrid

Modelled from the spec: the repository ships only the two shared headers;
the VolumeGrid implementation itself is not under src/, so it is modelled
from spec sections 3 and 4.1.  Machine float32 samples are modelled as exact
rationals. -/

/-- Construction-time errors of VolumeGrid.create (spec section 4.1 / 7). -/
inductive CreateError
  | invalidDimensions
  | invalidVoxelSize
deriving DecidableEq, Repr

/-- Modelled from the spec: the VolumeGrid data model of spec section 3 —
dimensions (voxel counts per axis), voxelSize (world-space edge lengths),
origin (world position of voxel (0,0,0)'s minimum corner) and the flat
sample sequence indexed by x + y*dimX + z*dimX*dimY. -/
structure VolumeGrid where
  dimX : Nat
  dimY : Nat
  dimZ : Nat
  voxelSize : Vec3
  origin : Vec3
  samples : List ℚ
deriving DecidableEq, Repr

/-- Flat sample index of the integer voxel (x, y, z): x + y*dimX + z*dimX*dimY
(spec section 3). -/
def VolumeGrid.flatIndex (g : VolumeGrid) (x y z : Nat) : Nat :=
  x + y * g.dimX + z * g.dimX * g.dimY

/-- Whether an integer voxel index lies inside the grid bounds. -/
def VolumeGrid.inBounds (g : VolumeGrid) (i j k : Int) : Prop :=
  0 ≤ i ∧ i < (g.dimX : Int) ∧ 0 ≤ j ∧ j < (g.dimY : Int) ∧
    0 ≤ k ∧ k < (g.dimZ : Int)

instance (g : VolumeGrid) (i j k : Int) : Decidable (g.inBounds i j k) := by
  unfold VolumeGrid.inBounds
  infer_instance

/-- Modelled from the spec: create(dimensions, voxelSize, origin, fillValue)
returns a grid with every sample set to fillValue; it fails with
InvalidDimensions if any dimension is 0 (checked first, in the order the
fields are listed) and with InvalidVoxelSize if any voxelSize component is
non-positive (spec section 4.1). -/
def VolumeGrid.create (dx dy dz : Nat) (vs origin : Vec3) (fill : ℚ) :
    Except CreateError VolumeGrid :=
  if dx = 0 ∨ dy = 0 ∨ dz = 0 then
    .error .invalidDimensions
  else if vs.x ≤ 0 ∨ vs.y ≤ 0 ∨ vs.z ≤ 0 then
    .error .invalidVoxelSize
  else
    .ok ⟨dx, dy, dz, vs, origin, List.replicate (dx * dy * dz) fill⟩

/-- Read the sample at an integer voxel index; out-of-range indices read as
0 (only ever used behind a bounds check). -/
def VolumeGrid.getSampleI (g : VolumeGrid) (i j k : Int) : ℚ :=
  if g.inBounds i j k then
    (g.samples[g.flatIndex i.toNat j.toNat k.toNat]?).getD 0
  else 0

/-- Modelled from the spec: setSample(integerVoxelIndex, value) mutates the
sample in place; an out-of-range index is a silent no-op — the grid itself
performs the clipping (spec section 4.1). -/
def VolumeGrid.setSample (g : VolumeGrid) (i j k : Int) (v : ℚ) : VolumeGrid :=
  if g.inBounds i j k then
    { g with samples := g.samples.set (g.flatIndex i.toNat j.toNat k.toNat) v }
  else g

/-- Modelled from the spec: addToSample adds to the stored sample in place;
an out-of-range index is a silent no-op (spec section 4.1). -/
def VolumeGrid.addToSample (g : VolumeGrid) (i j k : Int) (v : ℚ) : VolumeGrid :=
  if g.inBounds i j k then
    let n := g.flatIndex i.toNat j.toNat k.toNat
    { g with samples := g.samples.set n ((g.samples[n]?).getD 0 + v) }
  else g

/-- Modelled from the spec: worldToVoxel(worldPos) = (worldPos - origin) /
voxelSize componentwise, not bounds-checked (spec section 4.1). -/
def VolumeGrid.worldToVoxel (g : VolumeGrid) (p : Vec3) : Vec3 :=
  ⟨(p.x - g.origin.x) / g.voxelSize.x,
   (p.y - g.origin.y) / g.voxelSize.y,
   (p.z - g.origin.z) / g.voxelSize.z⟩

/-- Sample value at an integer cell, with each coordinate clamped to the
last valid cell (used by the trilinear interpolation at the boundary). -/
def VolumeGrid.cellValue (g : VolumeGrid) (x y z : Nat) : ℚ :=
  (g.samples[g.flatIndex (min x (g.dimX - 1)) (min y (g.dimY - 1))
      (min z (g.dimZ - 1))]?).getD 0

/-- Modelled from the spec: sample(voxelCoord) — trilinearly interpolated
value at a continuous voxel coordinate, clamping to the nearest valid cell
at the boundaries, no wrap and no extrapolation (spec section 4.1, with the
recommended clamping policy). -/
def VolumeGrid.sampleAt (g : VolumeGrid) (v : Vec3) : ℚ :=
  let cx := clampQ v.x 0 ((g.dimX : ℚ) - 1)
  let cy := clampQ v.y 0 ((g.dimY : ℚ) - 1)
  let cz := clampQ v.z 0 ((g.dimZ : ℚ) - 1)
  let ix := cx.floor.toNat
  let iy := cy.floor.toNat
  let iz := cz.floor.toNat
  let fx := cx - cx.floor
  let fy := cy - cy.floor
  let fz := cz - cz.floor
  let v00 := lerp (g.cellValue ix iy iz) (g.cellValue (ix + 1) iy iz) fx
  let v10 := lerp (g.cellValue ix (iy + 1) iz) (g.cellValue (ix + 1) (iy + 1) iz) fx
  let v01 := lerp (g.cellValue ix iy (iz + 1)) (g.cellValue (ix + 1) iy (iz + 1)) fx
  let v11 := lerp (g.cellValue ix (iy + 1) (iz + 1))
      (g.cellValue (ix + 1) (iy + 1) (iz + 1)) fx
  lerp (lerp v00 v10 fy) (lerp v01 v11 fy) fz

/-- World-space center of an integer voxel: the origin is the minimum corner
of voxel (0,0,0), so the center of voxel (i,j,k) sits half a voxel further
along each axis (spec sections 3 and 4.3). -/
def VolumeGrid.voxelCenter (g : VolumeGrid) (i j k : Int) : Vec3 :=
  ⟨g.origin.x + ((i : ℚ) + 1/2) * g.voxelSize.x,
   g.origin.y + ((j : ℚ) + 1/2) * g.voxelSize.y,
   g.origin.z + ((k : ℚ) + 1/2) * g.voxelSize.z⟩

/-- Grid well-formedness: the flat sample sequence has exactly
dimX*dimY*dimZ entries (the spec section 3 invariant). -/
def WellFormed (g : VolumeGrid) : Prop :=
  g.samples.length = g.dimX * g.dimY * g.dimZ

/-! ## SphereTracer

Modelled from the spec: the SphereTracer implementation is not under src/
(only the RaymarchParams declaration is); the renderer below follows spec
section 4.2 step by step.  Two operations of the spec are not exactly
representable over the rationals and are replaced by rational stand-ins,
noted on their definitions: the tangent in the ray setup, and vector
normalization in the shading (every claim settled here is independent of
both). -/

/-- Per-frame render request, mirroring the logical fields of struct
RaymarchParams shared by both headers (output size, camera basis, fov,
volume bounds, volume dimensions, time, isoValue). -/
structure RaymarchParams where
  outputWidth : Nat
  outputHeight : Nat
  cameraPosition : Vec3
  cameraForward : Vec3
  cameraRight : Vec3
  cameraUp : Vec3
  fov : ℚ
  volumeMin : Vec3
  volumeMax : Vec3
  volumeDimX : Nat
  volumeDimY : Nat
  volumeDimZ : Nat
  time : ℚ
  isoValue : ℚ
deriving DecidableEq, Repr

/-- Modelled from the spec: the ray setup scales the normalized device
coordinates by tan(fov/2); the exact tangent is not representable over ℚ,
so its small-angle rational stand-in fov/2 is used.  No claim settled in
this development depends on the value of this function. -/
def tanHalf (fov : ℚ) : ℚ := fov / 2

/-- Background color emitted for rays that miss the volume (a single
luminance channel models the pixel). -/
def backgroundColor : ℚ := 0

/-- Ambient term of the directional/ambient shading model. -/
def ambientLight : ℚ := 1/5

/-- Light direction of the directional shading term (left unnormalized:
normalization needs a square root, which ℚ lacks; no settled claim depends
on it). -/
def lightDir : Vec3 := ⟨1, 1, 1⟩

/-- Fixed maximum iteration budget of the per-pixel march (spec section 4.2
step 4). -/
def maxSteps : Nat := 128

/-- Minimum step epsilon bounding the adaptive step from below, guaranteeing
forward progress (spec section 4.2 step 3). -/
def minStep : ℚ := 1/1000

/-- Hit tolerance: the march reports a hit when the sampled value is within
this tolerance of isoValue (spec section 4.2 step 4). -/
def hitTol : ℚ := 1/1000

/-- Modelled from the spec: camera ray direction for pixel (u,v) — pixel
center mapped to normalized device coordinates centered on the image,
scaled by tan(fov/2) and the aspect ratio, and combined with the camera
basis (spec section 4.2 step 1; the direction is left unnormalized, as
normalization needs a square root and no settled claim depends on it). -/
def pixelRayDir (p : RaymarchParams) (u v : Nat) : Vec3 :=
  let ndcx := 2 * (((u : ℚ) + 1/2) / (p.outputWidth : ℚ)) - 1
  let ndcy := 1 - 2 * (((v : ℚ) + 1/2) / (p.outputHeight : ℚ))
  let aspect := (p.outputWidth : ℚ) / (p.outputHeight : ℚ)
  let s := tanHalf p.fov
  p.cameraForward + (ndcx * aspect * s) • p.cameraRight + (ndcy * s) • p.cameraUp

/-- One slab of the ray/axis-aligned-box intersection: narrows the running
parameter interval (lower bound, optional upper bound — none standing for
an interval still unbounded above) by the axis with ray origin o, direction
component d and slab [lo, hi]; a zero direction component keeps the
interval when the origin lies inside the slab and empties it otherwise. -/
def slabClip (o d lo hi : ℚ) : Option (ℚ × Option ℚ) → Option (ℚ × Option ℚ)
  | none => none
  | some (tmin, tmax?) =>
    if d = 0 then
      if lo ≤ o ∧ o ≤ hi then some (tmin, tmax?) else none
    else
      let ta := (lo - o) / d
      let tb := (hi - o) / d
      let t1 := min ta tb
      let t2 := max ta tb
      some (max tmin t1,
        match tmax? with
        | none => some t2
        | some m => some (min m t2))

/-- Modelled from the spec: intersect a ray with the axis-aligned box
[volumeMin, volumeMax] (spec section 4.2 step 2) by the slab method,
starting from parameter 0 so a ray origin already inside the box enters at
distance 0 (spec section 4.2 edge cases); returns the entry and exit
parameters, or none when the ray misses the box. -/
def rayBox (ro rd bmin bmax : Vec3) : Option (ℚ × ℚ) :=
  match slabClip ro.z rd.z bmin.z bmax.z
      (slabClip ro.y rd.y bmin.y bmax.y
        (slabClip ro.x rd.x bmin.x bmax.x (some (0, none)))) with
  | none => none
  | some (_, none) => none
  | some (tmin, some tmax) => if tmin ≤ tmax then some (tmin, tmax) else none

/-- Adaptive step of the march: the current distance-to-isosurface
magnitude, bounded below by the minimum epsilon (spec section 4.2 step 3). -/
def stepAdvance (d iso : ℚ) : ℚ :=
  max minStep |d - iso|

/-- Modelled from the spec: the per-pixel march loop (spec section 4.2 steps
3-4).  Arguments: remaining iteration budget, current ray parameter, steps
taken so far.  Returns the hit parameter (or none for miss/exhausted) and
the number of field-sampling steps performed.  The march ends as a miss
when the parameter passes the box exit, as a hit when the sample is within
tolerance of isoValue, and as exhausted when the budget runs out. -/
def march (g : VolumeGrid) (iso : ℚ) (ro rd : Vec3) (tExit : ℚ) :
    Nat → ℚ → Nat → Option ℚ × Nat
  | 0, _, n => (none, n)
  | fuel + 1, t, n =>
    if tExit < t then (none, n)
    else
      let d := g.sampleAt (g.worldToVoxel (ro + t • rd))
      if |d - iso| ≤ hitTol then (some t, n + 1)
      else march g iso ro rd tExit fuel (t + stepAdvance d iso) (n + 1)

/-- Central-difference gradient of the sampled field at a continuous voxel
coordinate (six extra samples, spec section 4.2 step 5). -/
def gradientAt (g : VolumeGrid) (v : Vec3) : Vec3 :=
  ⟨g.sampleAt ⟨v.x + 1, v.y, v.z⟩ - g.sampleAt ⟨v.x - 1, v.y, v.z⟩,
   g.sampleAt ⟨v.x, v.y + 1, v.z⟩ - g.sampleAt ⟨v.x, v.y - 1, v.z⟩,
   g.sampleAt ⟨v.x, v.y, v.z + 1⟩ - g.sampleAt ⟨v.x, v.y, v.z - 1⟩⟩

/-- Modelled from the spec: shading of a hit point — a simple
directional/ambient model on the central-difference gradient (spec section
4.2 step 5; the gradient is left unnormalized, see lightDir). -/
def shadePoint (g : VolumeGrid) (hitPos : Vec3) : ℚ :=
  ambientLight + max 0 (Vec3.dot (gradientAt g (g.worldToVoxel hitPos)) lightDir)

/-- Trace one pixel: build the camera ray, intersect it with the volume box
(emitting the background color with no marching work on a miss), march
between the entry and exit parameters, and shade a hit or emit the
background on miss/exhausted.  Returns the pixel color and the number of
field-sampling march steps performed. -/
def tracePixel (g : VolumeGrid) (p : RaymarchParams) (u v : Nat) : ℚ × Nat :=
  let rd := pixelRayDir p u v
  match rayBox p.cameraPosition rd p.volumeMin p.volumeMax with
  | none => (backgroundColor, 0)
  | some (tEnter, tExit) =>
    match march g p.isoValue p.cameraPosition rd tExit maxSteps tEnter 0 with
    | (none, n) => (backgroundColor, n)
    | (some tHit, n) => (shadePoint g (p.cameraPosition + tHit • rd), n)

/-- Modelled from the spec: render(grid, raymarchParams) — the
outputWidth×outputHeight pixel buffer in row-major order, returned together
with the grid the call leaves behind (rendering is a pure read, so the
returned grid is the input grid; spec section 4.2). -/
def SphereTracer.render (g : VolumeGrid) (p : RaymarchParams) :
    List ℚ × VolumeGrid :=
  ((List.range p.outputHeight).flatMap fun v =>
    (List.range p.outputWidth).map fun u => (tracePixel g p u v).1, g)

/-! ## SculptEngine

Modelled from the spec: the SculptEngine implementation is not under src/
(only the SculptParams declaration is); the engine below follows spec
section 4.3 step by step.  The spec leaves the exact falloff curve and
blend formula open (section 9), so a concrete smooth choice expressible
over ℚ is fixed here: falloff weight smoothFactor·(1 − d²/r²) and target
value (d² − r²)/r, blended toward the old value monotonically per mode. -/

/-- Sculpt mode: a two-variant closed enumeration (0 = add, 1 = remove in
the wire form of the Editor header). -/
inductive SculptMode
  | add
  | remove
deriving DecidableEq, Repr

/-- Per-edit request, mirroring the fields of struct SculptParams in the
Editor header: current and previous tool positions, influence radius, blend
strength, mode, and the flag telling whether the previous position is
valid. -/
structure SculptParams where
  toolPosition : Vec3
  previousPosition : Vec3
  radius : ℚ
  smoothFactor : ℚ
  mode : SculptMode
  hasPreviousPosition : Bool
deriving DecidableEq, Repr

/-- Closest point to q on the segment from a to b (the single point a when
the segment is degenerate); used for the capsule distance of a chained
stroke (spec section 4.3 step 4). -/
def segClosest (a b q : Vec3) : Vec3 :=
  let ab := b - a
  let den := Vec3.dot ab ab
  if den = 0 then a
  else a + clampQ (Vec3.dot (q - a) ab / den) 0 1 • ab

/-- Start point of the stroke segment: the previous tool position when it is
valid, otherwise the current position (collapsing the capsule to a single
sphere; spec section 4.3 step 2). -/
def strokeStart (s : SculptParams) : Vec3 :=
  if s.hasPreviousPosition then s.previousPosition else s.toolPosition

/-- Squared distance from a point to the stroke (segment previous→current,
or the single current position when no previous position is valid; spec
section 4.3 step 4). -/
def strokeDist2 (s : SculptParams) (c : Vec3) : ℚ :=
  dist2 c (segClosest (strokeStart s) s.toolPosition c)

/-- Modelled from the spec: falloff weight from the squared distance and the
radius — smooth, reaching zero at the influence boundary, scaled by
smoothFactor (spec section 4.3 step 5; the concrete curve is the open
choice of section 9). -/
def falloffWeight (s : SculptParams) (d2 : ℚ) : ℚ :=
  s.smoothFactor * (1 - d2 / s.radius ^ 2)

/-- Modelled from the spec: the target field value the blend pulls toward in
Add mode — the stroke distance reshaped into a field, negative inside the
influence region and zero at its boundary (spec section 4.3 step 6; the
concrete reshaping is the open choice of section 9). -/
def sculptTarget (s : SculptParams) (d2 : ℚ) : ℚ :=
  (d2 - s.radius ^ 2) / s.radius

/-- Modelled from the spec: per-voxel sculpt update (spec section 4.3 steps
4-6).  Voxels whose world-space center is farther than the radius from the
stroke are skipped; otherwise the stored value is blended toward the target
by the falloff weight — decreased in Add mode, increased in Remove mode —
through the grid's own bounds-clipping setSample. -/
def sculptVoxel (s : SculptParams) (g : VolumeGrid) (i j k : Int) : VolumeGrid :=
  let d2 := strokeDist2 s (g.voxelCenter i j k)
  if s.radius ^ 2 < d2 then g
  else
    let w := falloffWeight s d2
    let old := g.getSampleI i j k
    if s.mode = .add then
      g.setSample i j k (old + w * (min (sculptTarget s d2) old - old))
    else
      g.setSample i j k (old + w * (max (-sculptTarget s d2) old - old))

/-- Inclusive range of integers from lo to hi. -/
def intRange (lo hi : Int) : List Int :=
  (List.range (hi + 1 - lo).toNat).map fun n => lo + (n : Int)

/-- Modelled from the spec: the integer-voxel bounding cube of the stroke's
influence region — the voxel-space segment endpoints expanded by the radius
in voxel units per axis, floored and ceiled to integers (spec section 4.3
step 3). -/
def strokeCube (g : VolumeGrid) (s : SculptParams) : List (Int × Int × Int) :=
  let av := g.worldToVoxel (strokeStart s)
  let bv := g.worldToVoxel s.toolPosition
  let rx := s.radius / g.voxelSize.x
  let ry := s.radius / g.voxelSize.y
  let rz := s.radius / g.voxelSize.z
  (intRange (min av.z bv.z - rz).floor (max av.z bv.z + rz).ceil).flatMap fun k =>
    (intRange (min av.y bv.y - ry).floor (max av.y bv.y + ry).ceil).flatMap fun j =>
      (intRange (min av.x bv.x - rx).floor (max av.x bv.x + rx).ceil).map fun i =>
        (i, j, k)

/-- Modelled from the spec: apply(grid, sculptParams) — enumerate the
bounding cube of the influence region and apply the per-voxel update to
each voxel in turn (spec section 4.3). -/
def SculptEngine.apply (g : VolumeGrid) (s : SculptParams) : VolumeGrid :=
  (strokeCube g s).foldl (fun h t => sculptVoxel s h t.1 t.2.1 t.2.2) g

/-! ## Concrete instances used by the closed instantiations below -/

/-- Equality of all grid metadata (everything except the samples). -/
def MetaEq (g h : VolumeGrid) : Prop :=
  h.dimX = g.dimX ∧ h.dimY = g.dimY ∧ h.dimZ = g.dimZ ∧
    h.voxelSize = g.voxelSize ∧ h.origin = g.origin

/-- A concrete 1×1×1 grid with unit voxels, origin zero and the single
sample 2 (an "empty" positive field). -/
def gridW : VolumeGrid := ⟨1, 1, 1, ⟨1, 1, 1⟩, ⟨0, 0, 0⟩, [2]⟩

/-- A concrete 3×3×3 grid with unit voxels, origin zero and all samples 2. -/
def grid3 : VolumeGrid := ⟨3, 3, 3, ⟨1, 1, 1⟩, ⟨0, 0, 0⟩, List.replicate 27 2⟩

/-- A concrete single-sphere Add stroke: tool at the center of voxel
(0,0,0), radius 1/4, smoothFactor 1/2, no previous position. -/
def strokeW : SculptParams :=
  ⟨⟨1/2, 1/2, 1/2⟩, ⟨0, 0, 0⟩, 1/4, 1/2, .add, false⟩

/-- A concrete 2×2 render request whose camera sits at x = 10 aimed along
+x, strictly outside of and away from the volume box [0,1]³ — every pixel
ray misses the box. -/
def paramsAway : RaymarchParams :=
  ⟨2, 2, ⟨10, 0, 0⟩, ⟨1, 0, 0⟩, ⟨0, 1, 0⟩, ⟨0, 0, 1⟩, 1,
   ⟨0, 0, 0⟩, ⟨1, 1, 1⟩, 1, 1, 1, 0, 0⟩

/-! ## Helper lemmas -/

/-- Componentwise form of vector subtraction. -/
@[simp] theorem Vec3.sub_def (a b : Vec3) :
    a - b = ⟨a.x - b.x, a.y - b.y, a.z - b.z⟩ := rfl

/-- Componentwise form of vector addition. -/
@[simp] theorem Vec3.add_def (a b : Vec3) :
    a + b = ⟨a.x + b.x, a.y + b.y, a.z + b.z⟩ := rfl

/-- Componentwise form of scalar multiplication. -/
@[simp] theorem Vec3.smul_def (c : ℚ) (a : Vec3) :
    c • a = ⟨c * a.x, c * a.y, c * a.z⟩ := rfl

/-- The flat sample index is injective on in-bounds voxel triples. -/
theorem flatIndex_inj (dx dy : Nat) {x1 y1 z1 x2 y2 z2 : Nat}
    (hx1 : x1 < dx) (hx2 : x2 < dx) (hy1 : y1 < dy) (hy2 : y2 < dy)
    (h : x1 + y1 * dx + z1 * dx * dy = x2 + y2 * dx + z2 * dx * dy) :
    x1 = x2 ∧ y1 = y2 ∧ z1 = z2 := by
  have h' : x1 + dx * (y1 + dy * z1) = x2 + dx * (y2 + dy * z2) := by
    calc x1 + dx * (y1 + dy * z1)
        = x1 + y1 * dx + z1 * dx * dy := by ring
      _ = x2 + y2 * dx + z2 * dx * dy := h
      _ = x2 + dx * (y2 + dy * z2) := by ring
  have hx : x1 = x2 := by
    have hm := congrArg (fun t => t % dx) h'
    simp only [Nat.add_mul_mod_self_left] at hm
    rwa [Nat.mod_eq_of_lt hx1, Nat.mod_eq_of_lt hx2] at hm
  subst hx
  have hdx : 0 < dx := Nat.lt_of_le_of_lt (Nat.zero_le _) hx1
  have h2 : y1 + dy * z1 = y2 + dy * z2 :=
    Nat.eq_of_mul_eq_mul_left hdx (Nat.add_left_cancel h')
  have hy : y1 = y2 := by
    have hm := congrArg (fun t => t % dy) h2
    simp only [Nat.add_mul_mod_self_left] at hm
    rwa [Nat.mod_eq_of_lt hy1, Nat.mod_eq_of_lt hy2] at hm
  subst hy
  have hdy : 0 < dy := Nat.lt_of_le_of_lt (Nat.zero_le _) hy1
  have hz : z1 = z2 :=
    Nat.eq_of_mul_eq_mul_left hdy (Nat.add_left_cancel h2)
  exact ⟨rfl, rfl, hz⟩

/-- setSample changes no grid metadata and keeps the sample count. -/
theorem setSample_shape (g : VolumeGrid) (i j k : Int) (v : ℚ) :
    MetaEq g (g.setSample i j k v) ∧
      (g.setSample i j k v).samples.length = g.samples.length := by
  unfold VolumeGrid.setSample
  split
  · exact ⟨⟨rfl, rfl, rfl, rfl, rfl⟩, List.length_set ..⟩
  · exact ⟨⟨rfl, rfl, rfl, rfl, rfl⟩, rfl⟩

/-- addToSample changes no grid metadata and keeps the sample count. -/
theorem addToSample_shape (g : VolumeGrid) (i j k : Int) (v : ℚ) :
    MetaEq g (g.addToSample i j k v) ∧
      (g.addToSample i j k v).samples.length = g.samples.length := by
  unfold VolumeGrid.addToSample
  split
  · exact ⟨⟨rfl, rfl, rfl, rfl, rfl⟩, List.length_set ..⟩
  · exact ⟨⟨rfl, rfl, rfl, rfl, rfl⟩, rfl⟩

/-- The per-voxel sculpt update changes no grid metadata and keeps the
sample count. -/
theorem sculptVoxel_shape (s : SculptParams) (g : VolumeGrid) (i j k : Int) :
    MetaEq g (sculptVoxel s g i j k) ∧
      (sculptVoxel s g i j k).samples.length = g.samples.length := by
  simp only [sculptVoxel]
  split
  · exact ⟨⟨rfl, rfl, rfl, rfl, rfl⟩, rfl⟩
  · split
    · exact setSample_shape ..
    · exact setSample_shape ..

/-- Folding the per-voxel sculpt update over any voxel list changes no grid
metadata and keeps the sample count. -/
theorem foldl_sculpt_shape (s : SculptParams) :
    ∀ (l : List (Int × Int × Int)) (g : VolumeGrid),
      MetaEq g (l.foldl (fun h t => sculptVoxel s h t.1 t.2.1 t.2.2) g) ∧
        (l.foldl (fun h t => sculptVoxel s h t.1 t.2.1 t.2.2) g).samples.length =
          g.samples.length
  | [], _ => ⟨⟨rfl, rfl, rfl, rfl, rfl⟩, rfl⟩
  | t :: l, g => by
    rw [List.foldl_cons]
    obtain ⟨⟨a1, a2, a3, a4, a5⟩, a6⟩ := sculptVoxel_shape s g t.1 t.2.1 t.2.2
    obtain ⟨⟨b1, b2, b3, b4, b5⟩, b6⟩ :=
      foldl_sculpt_shape s l (sculptVoxel s g t.1 t.2.1 t.2.2)
    exact ⟨⟨b1.trans a1, b2.trans a2, b3.trans a3, b4.trans a4, b5.trans a5⟩,
      b6.trans a6⟩

/-- Grids with equal metadata have equal voxel centers. -/
theorem voxelCenter_congr {g h : VolumeGrid} (hm : MetaEq g h) (i j k : Int) :
    h.voxelCenter i j k = g.voxelCenter i j k := by
  obtain ⟨-, -, -, h4, h5⟩ := hm
  unfold VolumeGrid.voxelCenter
  rw [h4, h5]

/-- Setting one voxel leaves the sample read at any other voxel unchanged. -/
theorem getSampleI_setSample_ne (g : VolumeGrid) (a b c i j k : Int) (v : ℚ)
    (hne : ¬(a = i ∧ b = j ∧ c = k)) :
    (g.setSample a b c v).getSampleI i j k = g.getSampleI i j k := by
  unfold VolumeGrid.setSample
  split
  case isTrue habc =>
    unfold VolumeGrid.inBounds at habc
    unfold VolumeGrid.getSampleI VolumeGrid.inBounds VolumeGrid.flatIndex
    dsimp only
    split
    case isTrue hijk =>
      refine congrArg (fun o => Option.getD o 0) ?_
      refine List.getElem?_set_ne ?_
      intro heq
      have hb1 : a.toNat < g.dimX := by omega
      have hb2 : i.toNat < g.dimX := by omega
      have hb3 : b.toNat < g.dimY := by omega
      have hb4 : j.toNat < g.dimY := by omega
      obtain ⟨e1, e2, e3⟩ := flatIndex_inj g.dimX g.dimY hb1 hb2 hb3 hb4 heq
      exact hne (by omega)
    case isFalse => rfl
  case isFalse => rfl

/-- For a stroke with no previous position, the stroke distance collapses to
the distance to the single current tool position. -/
theorem strokeDist2_single (s : SculptParams)
    (hprev : s.hasPreviousPosition = false) (c : Vec3) :
    strokeDist2 s c = dist2 c s.toolPosition := by
  unfold strokeDist2 strokeStart segClosest
  rw [hprev]
  simp [Vec3.dot]

/-- The per-voxel sculpt update of a single-position stroke leaves every
voxel whose center is farther than the radius from the tool unchanged. -/
theorem sculptVoxel_getSample_far (s : SculptParams)
    (hprev : s.hasPreviousPosition = false) (g : VolumeGrid)
    (a b c i j k : Int)
    (hfar : s.radius ^ 2 < dist2 (g.voxelCenter i j k) s.toolPosition) :
    (sculptVoxel s g a b c).getSampleI i j k = g.getSampleI i j k := by
  by_cases ht : a = i ∧ b = j ∧ c = k
  · obtain ⟨rfl, rfl, rfl⟩ := ht
    simp only [sculptVoxel]
    rw [strokeDist2_single s hprev, if_pos hfar]
  · simp only [sculptVoxel]
    split
    · rfl
    · split
      · exact getSampleI_setSample_ne g a b c i j k _ ht
      · exact getSampleI_setSample_ne g a b c i j k _ ht

/-- Folding the per-voxel update of a single-position stroke over any voxel
list leaves every voxel whose center is farther than the radius from the
tool unchanged. -/
theorem foldl_sculpt_getSample_far (s : SculptParams)
    (hprev : s.hasPreviousPosition = false) (i j k : Int) :
    ∀ (l : List (Int × Int × Int)) (g : VolumeGrid),
      s.radius ^ 2 < dist2 (g.voxelCenter i j k) s.toolPosition →
      (l.foldl (fun h t => sculptVoxel s h t.1 t.2.1 t.2.2) g).getSampleI i j k =
        g.getSampleI i j k
  | [], _, _ => rfl
  | t :: l, g, hfar => by
    rw [List.foldl_cons]
    have hc : (sculptVoxel s g t.1 t.2.1 t.2.2).voxelCenter i j k =
        g.voxelCenter i j k :=
      voxelCenter_congr (sculptVoxel_shape s g t.1 t.2.1 t.2.2).1 i j k
    have hrec := foldl_sculpt_getSample_far s hprev i j k l
      (sculptVoxel s g t.1 t.2.1 t.2.2) (by rw [hc]; exact hfar)
    rw [hrec, sculptVoxel_getSample_far s hprev g t.1 t.2.1 t.2.2 i j k hfar]

/-- The march performs at most as many steps as its remaining budget. -/
theorem march_steps_le (g : VolumeGrid) (iso : ℚ) (ro rd : Vec3) (tExit : ℚ) :
    ∀ (fuel : Nat) (t : ℚ) (n : Nat),
      (march g iso ro rd tExit fuel t n).2 ≤ n + fuel
  | 0, t, n => by simp [march]
  | fuel + 1, t, n => by
    simp only [march]
    split
    · show n ≤ n + (fuel + 1)
      omega
    · split
      · show n + 1 ≤ n + (fuel + 1)
        omega
      · have := march_steps_le g iso ro rd tExit fuel
          (t + stepAdvance (g.sampleAt (g.worldToVoxel (ro + t • rd))) iso) (n + 1)
        omega

/-- Creating a grid with positive dimensions and voxel sizes yields exactly
the filled grid. -/
theorem create_eq_ok_of_pos (dx dy dz : Nat) (vs o : Vec3) (fill : ℚ)
    (h1 : 0 < dx) (h2 : 0 < dy) (h3 : 0 < dz)
    (h4 : 0 < vs.x) (h5 : 0 < vs.y) (h6 : 0 < vs.z) :
    VolumeGrid.create dx dy dz vs o fill =
      Except.ok ⟨dx, dy, dz, vs, o, List.replicate (dx * dy * dz) fill⟩ := by
  unfold VolumeGrid.create
  rw [if_neg (by omega), if_neg (by push_neg; exact ⟨h4, h5, h6⟩)]

/-- Any grid returned by create is well-formed. -/
theorem create_ok_wellFormed (dx dy dz : Nat) (vs o : Vec3) (fill : ℚ)
    (g' : VolumeGrid) (h : VolumeGrid.create dx dy dz vs o fill = Except.ok g') :
    WellFormed g' := by
  unfold VolumeGrid.create at h
  split at h
  · simp at h
  · split at h
    · simp at h
    · injection h with h
      subst h
      simp [WellFormed]

/-! ## Claim theorems -/

set_option maxRecDepth 10000 in
/-- C1 (counterexample): the Editor header's RaymarchParams struct has total
size 108 bytes, which is not a multiple of 16 — the trailing pad float does
not complete 16-byte alignment — and the Viewer header's RaymarchParams
places the field starting the camera position at a different byte offset,
so the layout is not preserved identically by every consumer. -/
theorem c1_raymarch_layout_counterexample :
    structSize editorRaymarchParamsFields % 16 ≠ 0 ∧
      offsetAt viewerRaymarchParamsFields 2 ≠ offsetAt editorRaymarchParamsFields 2 := by
  decide

set_option maxRecDepth 10000 in
/-- C1 (amended): the Editor header's RaymarchParams consists, in exact
field order, of 2 unsigned 32-bit output-size fields, 19 float32 fields
(4 camera basis vectors of 3 components, fov, volume min and max of 3
components each), 3 unsigned 32-bit volume dimensions, and 3 trailing
float32 fields (time, isoValue, pad), scalar-packed at consecutive 4-byte
offsets; its total size is 108 bytes — a multiple of 4 but not of 16, so
the trailing pad float does not complete 16-byte alignment — and the Viewer
header's RaymarchParams lays the same logical fields out differently
(camera position at byte offset 16 instead of 8), so the layout is shared
by the Editor header's own C and Metal consumers but not across both
headers. -/
theorem c1_raymarch_layout :
    editorRaymarchParamsFields.map CField.ty =
      [FieldTy.u32, FieldTy.u32] ++ List.replicate 19 FieldTy.f32 ++
        [FieldTy.u32, FieldTy.u32, FieldTy.u32] ++
        [FieldTy.f32, FieldTy.f32, FieldTy.f32] ∧
    structOffsets editorRaymarchParamsFields = (List.range 27).map (fun n => 4 * n) ∧
    structSize editorRaymarchParamsFields = 108 ∧
    structSize editorRaymarchParamsFields % 16 = 12 ∧
    offsetAt editorRaymarchParamsFields 2 = 8 ∧
    offsetAt viewerRaymarchParamsFields 2 = 16 := by
  decide

/-- C2 (counterexample): an input with both a zero dimension and a
non-positive voxelSize component fails with InvalidDimensions, not with
InvalidVoxelSize — so the claim's unconditional voxelSize clause is false
on such overlapping inputs. -/
theorem c2_create_counterexample :
    (Vec3.mk (-1) 1 1).x ≤ 0 ∧
      VolumeGrid.create 0 1 1 ⟨-1, 1, 1⟩ ⟨0, 0, 0⟩ 2 ≠
        Except.error CreateError.invalidVoxelSize := by
  constructor
  · with_unfolding_all decide
  · intro h
    have h0 : VolumeGrid.create 0 1 1 ⟨-1, 1, 1⟩ ⟨0, 0, 0⟩ 2 =
        Except.error CreateError.invalidDimensions := by
      unfold VolumeGrid.create
      rw [if_pos (Or.inl rfl)]
    rw [h0] at h
    injection h with h
    exact absurd h (by decide)

/-- C2 (amended): for all-positive dimensions and voxelSize, create returns
exactly the grid whose samples sequence is dimX*dimY*dimZ copies of
fillValue; any zero dimension fails with InvalidDimensions; a non-positive
voxelSize component fails with InvalidVoxelSize provided no dimension is
zero (the dimension check runs first); an error return carries no grid. -/
theorem c2_create_contract (dx dy dz : Nat) (vs o : Vec3) (fill : ℚ) :
    (0 < dx → 0 < dy → 0 < dz → 0 < vs.x → 0 < vs.y → 0 < vs.z →
      VolumeGrid.create dx dy dz vs o fill =
        Except.ok ⟨dx, dy, dz, vs, o, List.replicate (dx * dy * dz) fill⟩ ∧
      (List.replicate (dx * dy * dz) fill).length = dx * dy * dz ∧
      ∀ q ∈ List.replicate (dx * dy * dz) fill, q = fill) ∧
    ((dx = 0 ∨ dy = 0 ∨ dz = 0) →
      VolumeGrid.create dx dy dz vs o fill =
        Except.error CreateError.invalidDimensions) ∧
    (¬(dx = 0 ∨ dy = 0 ∨ dz = 0) → (vs.x ≤ 0 ∨ vs.y ≤ 0 ∨ vs.z ≤ 0) →
      VolumeGrid.create dx dy dz vs o fill =
        Except.error CreateError.invalidVoxelSize) := by
  refine ⟨fun h1 h2 h3 h4 h5 h6 =>
    ⟨create_eq_ok_of_pos dx dy dz vs o fill h1 h2 h3 h4 h5 h6,
     List.length_replicate .., fun q hq => List.eq_of_mem_replicate hq⟩, ?_, ?_⟩
  · intro hd
    unfold VolumeGrid.create
    rw [if_pos hd]
  · intro hd hv
    unfold VolumeGrid.create
    rw [if_neg hd, if_pos hv]

/-- C2 witness: a concrete successful creation. -/
theorem c2_create_contract_witness :
    VolumeGrid.create 2 3 4 ⟨1, 1, 1⟩ ⟨0, 0, 0⟩ 7 =
      Except.ok ⟨2, 3, 4, ⟨1, 1, 1⟩, ⟨0, 0, 0⟩, List.replicate (2 * 3 * 4) 7⟩ :=
  ((c2_create_contract 2 3 4 ⟨1, 1, 1⟩ ⟨0, 0, 0⟩ 7).1 (by decide) (by decide)
    (by decide) (by decide) (by decide) (by decide)).1

/-- C3: the samples.length = dimX*dimY*dimZ invariant is established by
create and preserved by setSample, addToSample, SculptEngine.apply and
SphereTracer.render; in particular apply never resizes the samples array
and never changes the dimensions, and render returns the grid unchanged. -/
theorem c3_invariant_preserved (g : VolumeGrid) (i j k : Int) (v : ℚ)
    (s : SculptParams) (p : RaymarchParams) (hw : WellFormed g) :
    (WellFormed (g.setSample i j k v) ∧
      WellFormed (g.addToSample i j k v) ∧
      WellFormed (SculptEngine.apply g s) ∧
      (SculptEngine.apply g s).samples.length = g.samples.length ∧
      (SculptEngine.apply g s).dimX = g.dimX ∧
      (SculptEngine.apply g s).dimY = g.dimY ∧
      (SculptEngine.apply g s).dimZ = g.dimZ ∧
      (SphereTracer.render g p).2 = g) ∧
    ∀ (dx dy dz : Nat) (vs o : Vec3) (fill : ℚ) (g' : VolumeGrid),
      VolumeGrid.create dx dy dz vs o fill = Except.ok g' → WellFormed g' := by
  obtain ⟨⟨s1, s2, s3, -, -⟩, s6⟩ := setSample_shape g i j k v
  obtain ⟨⟨a1, a2, a3, -, -⟩, a6⟩ := addToSample_shape g i j k v
  obtain ⟨⟨f1, f2, f3, -, -⟩, f6⟩ := foldl_sculpt_shape s (strokeCube g s) g
  refine ⟨⟨?_, ?_, ?_, f6, f1, f2, f3, rfl⟩,
    fun dx dy dz vs o fill g' h => create_ok_wellFormed dx dy dz vs o fill g' h⟩
  · unfold WellFormed
    rw [s6, s1, s2, s3]
    exact hw
  · unfold WellFormed
    rw [a6, a1, a2, a3]
    exact hw
  · unfold WellFormed
    rw [show SculptEngine.apply g s =
        (strokeCube g s).foldl (fun h t => sculptVoxel s h t.1 t.2.1 t.2.2) g from rfl]
    rw [f6, f1, f2, f3]
    exact hw

/-- C3 witness: a concrete grid on which the invariant facts instantiate. -/
theorem c3_invariant_witness :
    WellFormed (VolumeGrid.setSample gridW 0 0 0 5) ∧
      (SphereTracer.render gridW paramsAway).2 = gridW :=
  ⟨((c3_invariant_preserved gridW 0 0 0 5 strokeW paramsAway rfl).1).1,
   ((c3_invariant_preserved gridW 0 0 0 5 strokeW paramsAway rfl).1).2.2.2.2.2.2.2⟩

/-- C4: rendering is deterministic and a pure read — identical grid
contents and identical RaymarchParams give identical pixel buffers, and the
grid after a render call equals the grid before it. -/
theorem c4_render_deterministic_and_pure (g g₂ : VolumeGrid)
    (p p₂ : RaymarchParams) (hg : g₂ = g) (hp : p₂ = p) :
    (SphereTracer.render g₂ p₂).1 = (SphereTracer.render g p).1 ∧
      (SphereTracer.render g p).2 = g := by
  subst hg
  subst hp
  exact ⟨rfl, rfl⟩

/-- C4 witness: a concrete render call. -/
theorem c4_render_witness :
    (SphereTracer.render gridW paramsAway).1 =
        (SphereTracer.render gridW paramsAway).1 ∧
      (SphereTracer.render gridW paramsAway).2 = gridW :=
  c4_render_deterministic_and_pure gridW gridW paramsAway paramsAway rfl rfl

/-- C5: sculpt locality — an Add stroke with no previous position and
radius r leaves every sample whose voxel world-space center is farther than
r from the tool position (squared distance beyond r², the falloff margin
being zero) bit-identical to its pre-stroke value. -/
theorem c5_sculpt_locality (g : VolumeGrid) (s : SculptParams)
    (hprev : s.hasPreviousPosition = false) (hmode : s.mode = SculptMode.add)
    (hr : 0 < s.radius) (i j k : Int)
    (hfar : s.radius ^ 2 < dist2 (g.voxelCenter i j k) s.toolPosition) :
    (SculptEngine.apply g s).getSampleI i j k = g.getSampleI i j k := by
  unfold SculptEngine.apply
  exact foldl_sculpt_getSample_far s hprev i j k (strokeCube g s) g hfar

/-- C5 witness: a concrete far voxel untouched by a concrete stroke. -/
theorem c5_sculpt_locality_witness :
    (SculptEngine.apply grid3 strokeW).getSampleI 2 2 2 =
      grid3.getSampleI 2 2 2 :=
  c5_sculpt_locality grid3 strokeW rfl rfl (by with_unfolding_all decide) 2 2 2
    (by with_unfolding_all decide)

/-- C6: out-of-range voxel indices make setSample and addToSample silent
no-ops — the whole grid, samples and metadata, is returned unchanged. -/
theorem c6_out_of_range_noop (g : VolumeGrid) (i j k : Int) (v : ℚ)
    (h : ¬ g.inBounds i j k) :
    g.setSample i j k v = g ∧ g.addToSample i j k v = g := by
  constructor
  · unfold VolumeGrid.setSample
    rw [if_neg h]
  · unfold VolumeGrid.addToSample
    rw [if_neg h]

/-- C6 witness: a concrete out-of-range write is a no-op. -/
theorem c6_out_of_range_noop_witness :
    VolumeGrid.setSample gridW (-1) 0 0 5 = gridW ∧
      VolumeGrid.addToSample gridW (-1) 0 0 5 = gridW :=
  c6_out_of_range_noop gridW (-1) 0 0 5 (by decide)

/-- C7: the ray-march loop terminates for every pixel — the minimum step
epsilon is positive and bounds every adaptive step from below, and the
number of field-sampling steps of any pixel trace never exceeds the fixed
iteration budget, for every grid contents and every RaymarchParams. -/
theorem c7_march_bounded (g : VolumeGrid) (p : RaymarchParams) (u v : Nat)
    (d : ℚ) :
    0 < minStep ∧ minStep ≤ stepAdvance d p.isoValue ∧
      (tracePixel g p u v).2 ≤ maxSteps := by
  refine ⟨by with_unfolding_all decide, le_max_left _ _, ?_⟩
  simp only [tracePixel]
  rcases hrb : rayBox p.cameraPosition (pixelRayDir p u v) p.volumeMin p.volumeMax
    with _ | ⟨t0, t1⟩
  · simp
  · have hm := march_steps_le g p.isoValue p.cameraPosition (pixelRayDir p u v)
      t1 maxSteps t0 0
    rcases hmr : march g p.isoValue p.cameraPosition (pixelRayDir p u v)
      t1 maxSteps t0 0 with ⟨ho, n⟩
    rw [hmr] at hm
    cases ho
    · simp [hmr]
      omega
    · simp [hmr]
      omega

/-- C7 witness: the bounds instantiated at a concrete pixel trace. -/
theorem c7_march_bounded_witness :
    0 < minStep ∧ minStep ≤ stepAdvance 0 paramsAway.isoValue ∧
      (tracePixel gridW paramsAway 0 0).2 ≤ maxSteps :=
  c7_march_bounded gridW paramsAway 0 0 0

/-- C8: if every pixel's camera ray misses the volume box, every pixel
traces to the background color with zero marching steps (no field sampling
at all) and the rendered buffer is entirely background-colored. -/
theorem c8_rays_miss_all_background (g : VolumeGrid) (p : RaymarchParams)
    (h : ∀ u < p.outputWidth, ∀ v < p.outputHeight,
      rayBox p.cameraPosition (pixelRayDir p u v) p.volumeMin p.volumeMax = none) :
    (∀ u < p.outputWidth, ∀ v < p.outputHeight,
      tracePixel g p u v = (backgroundColor, 0)) ∧
    ∀ c ∈ (SphereTracer.render g p).1, c = backgroundColor := by
  have hp : ∀ u < p.outputWidth, ∀ v < p.outputHeight,
      tracePixel g p u v = (backgroundColor, 0) := by
    intro u hu v hv
    simp only [tracePixel]
    rw [h u hu v hv]
  refine ⟨hp, ?_⟩
  intro c hc
  simp only [SphereTracer.render] at hc
  rw [List.mem_flatMap] at hc
  obtain ⟨v, hv, hc⟩ := hc
  rw [List.mem_map] at hc
  obtain ⟨u, hu, rfl⟩ := hc
  rw [hp u (List.mem_range.mp hu) v (List.mem_range.mp hv)]

/-- C8 witness: for the concrete away-facing camera, a concrete pixel is
background with zero steps. -/
theorem c8_rays_miss_witness :
    tracePixel gridW paramsAway 0 0 = (backgroundColor, 0) :=
  (c8_rays_miss_all_background gridW paramsAway (by with_unfolding_all decide)).1
    0 (by decide) 0 (by decide)

set_option maxRecDepth 100000 in
/-- C9: sculpting is cumulative, not idempotent — there are a grid and an
Add stroke with positive radius and smoothFactor whose second identical
application changes the grid further. -/
theorem c9_sculpt_cumulative :
    ∃ (g : VolumeGrid) (s : SculptParams),
      s.mode = SculptMode.add ∧ 0 < s.radius ∧ 0 < s.smoothFactor ∧
        SculptEngine.apply (SculptEngine.apply g s) s ≠ SculptEngine.apply g s :=
  ⟨gridW, strokeW, rfl, by with_unfolding_all decide, by with_unfolding_all decide,
    by with_unfolding_all decide⟩

set_option maxRecDepth 10000 in
/-- C10: the two headers give the same logical parameter structs
binary-incompatible layouts — the Viewer's 3-component vector fields
occupy 16 bytes at 16-byte alignment, so cameraPosition starts at byte 16
in the Viewer's RaymarchParams but at byte 8 in the Editor's, and both
RaymarchParams and VolumeParams have different total sizes across the two
headers. -/
theorem c10_layouts_binary_incompatible :
    v3f.size = 16 ∧ v3f.align = 16 ∧ v3u.size = 16 ∧ v3u.align = 16 ∧
    viewerRaymarchParamsFields.get? 2 = some v3f ∧
    offsetAt editorRaymarchParamsFields 2 = 8 ∧
    offsetAt viewerRaymarchParamsFields 2 = 16 ∧
    offsetAt viewerRaymarchParamsFields 2 ≠ offsetAt editorRaymarchParamsFields 2 ∧
    structSize editorRaymarchParamsFields = 108 ∧
    structSize viewerRaymarchParamsFields = 160 ∧
    structSize editorRaymarchParamsFields ≠ structSize viewerRaymarchParamsFields ∧
    structSize editorVolumeParamsFields = 40 ∧
    structSize viewerVolumeParamsFields = 48 ∧
    structSize editorVolumeParamsFields ≠ structSize viewerVolumeParamsFields := by
  decide

end SDF
